import Mathlib

/-!
Verification of the Hive player-tracker engine (hive_tracker.py) against its
specification.  The Python source is shallowly embedded: JSON values are an
inductive type (JSON numbers are modelled as integers; floating-point
payloads are outside the model), Python dictionaries are association lists
in insertion order, Python exceptions are modelled with Except, and
wall-clock timestamps are rationals counted in seconds.
-/

/-- A JSON value as produced by response.json.  Python bool is a subtype of
int, so Json.bool is recognised by the numeric isinstance branch of the
parser exactly as in the source. -/
inductive Json where
  | null : Json
  | bool : Bool → Json
  | num : Int → Json
  | str : String → Json
  | arr : List Json → Json
  | obj : List (String × Json) → Json

/-- The Python exception kinds reachable in the embedded code. -/
inductive PyErr where
  | typeError : PyErr
  | valueError : PyErr
  | keyError : PyErr
deriving DecidableEq

/-- First-match lookup in a Python dict modelled as an association list. -/
def dictGet (fields : List (String × Json)) (key : String) : Option Json :=
  (fields.find? (fun p => p.1 == key)).map Prod.snd

/-- Python item.get(key, default): a key that is present returns its value
even when that value is None. -/
def dictGetD (fields : List (String × Json)) (key : String) (dflt : Json) : Json :=
  (dictGet fields key).getD dflt

/-- Python str equality against a JSON value (used by list membership):
equal only to the same string, never raises. -/
def isStrEq (v : Json) (key : String) : Bool :=
  match v with
  | .str s => s == key
  | _ => false

/-- Python `key in container` for a JSON value: dict key membership, list
element membership, substring test on a string; int, float, bool and None
are not containers, so the membership test raises TypeError. -/
def pyContains (container : Json) (key : String) : Except PyErr Bool :=
  match container with
  | .obj fields => .ok (fields.any (fun p => p.1 == key))
  | .arr xs => .ok (xs.any (fun v => isStrEq v key))
  | .str s => .ok (decide (key.toList <:+: s.toList))
  | _ => .error .typeError

/-- Python container[key] with a string key: only a dict accepts it. -/
def pySubscript (container : Json) (key : String) : Except PyErr Json :=
  match container with
  | .obj fields =>
    match dictGet fields key with
    | some v => .ok v
    | none => .error .keyError
  | _ => .error .typeError

/-- Python truthiness of a JSON value. -/
def pyTruthy : Json → Bool
  | .null => false
  | .bool b => b
  | .num n => !(n == 0)
  | .str s => !(s == "")
  | .arr xs => !xs.isEmpty
  | .obj fs => !fs.isEmpty

/-- Python str.lower on one character (ASCII model). -/
def charLower (c : Char) : Char :=
  if c.toNat ≥ 65 ∧ c.toNat ≤ 90 then Char.ofNat (c.toNat + 32) else c

/-- Python str.lower (ASCII model). -/
def strLower (s : String) : String := String.mk (s.toList.map charLower)

/-- Python str.strip: drop leading and trailing whitespace. -/
def strStrip (s : String) : String :=
  String.mk
    (((s.toList.dropWhile Char.isWhitespace).reverse.dropWhile
        Char.isWhitespace).reverse)

/-- Continuation of a run of ASCII decimal digits in which single
underscores are allowed between digits (PEP 515), entered with the value
acc of the digits read so far; none when an underscore is doubled,
trailing, or followed by a non-digit. -/
def digitsValRest (acc : Nat) : List Char → Option Nat
  | [] => some acc
  | c :: cs =>
    if c.isDigit then digitsValRest (acc * 10 + (c.toNat - 48)) cs
    else if c = '_' then
      match cs with
      | [] => none
      | c2 :: cs2 =>
        if c2.isDigit then digitsValRest (acc * 10 + (c2.toNat - 48)) cs2
        else none
    else none

/-- Value of a Python int literal digit run: a leading digit, then digits
with single underscores allowed between digits, as Python accepts them
(int "1_0" is 10, while "_1", "1_" and "1__0" raise). -/
def digitsVal (cs : List Char) : Option Nat :=
  match cs with
  | [] => none
  | c :: rest =>
    if c.isDigit then digitsValRest (c.toNat - 48) rest else none

/-- Python int(s) on a string: strip whitespace, optional ASCII sign, then
decimal digits with single underscores between digits; anything else
raises ValueError (modelled as none).  ASCII model: Python additionally
reads non-ASCII decimal digits and whitespace, which, absent an ASCII
minus sign, can only yield non-negative values. -/
def strToIntOpt (s : String) : Option Int :=
  match (strStrip s).toList with
  | [] => none
  | c :: rest =>
    if c = '-' then (digitsVal rest).map (fun n => -(n : Int))
    else if c = '+' then (digitsVal rest).map (fun n => (n : Int))
    else (digitsVal (c :: rest)).map (fun n => (n : Int))

/-- Python int(v) coercion as used by the parser. -/
def pyInt : Json → Except PyErr Int
  | .bool b => .ok (if b then 1 else 0)
  | .num n => .ok n
  | .str s =>
    match strToIntOpt s with
    | some n => .ok n
    | none => .error .valueError
  | _ => .error .typeError

/-- Python `v > 0`: numbers and bools compare against an int, any other
type raises TypeError. -/
def pyGtZero : Json → Except PyErr Bool
  | .bool b => .ok b
  | .num n => .ok (decide (0 < n))
  | _ => .error .typeError

/-- GameData (source lines 45-54): one gamemode's cumulative counters. -/
structure GameData where
  games_played : Int
  victories : Int
deriving DecidableEq

/-- The gamemode keys of HiveAPI.GAMEMODE_MAPPING in source order
(lines 76-90). -/
def GAMEMODE_KEYS : List String :=
  ["sky", "murder", "dr", "hide", "party", "sg", "ctf", "ground", "grav",
   "bridge", "drop", "build", "bed"]

/-- HiveAPI.GAMEMODE_MAPPING (source lines 76-90). -/
def GAMEMODE_MAPPING : List (String × String) :=
  [("sky", "SkyWars"), ("murder", "Murder Mystery"), ("dr", "DeathRun"),
   ("hide", "Hide and Seek"), ("party", "Block Party"),
   ("sg", "Survival Games"), ("ctf", "Capture the Flag"),
   ("ground", "Ground Wars"), ("grav", "Gravity"), ("bridge", "The Bridge"),
   ("drop", "Block Drop"), ("build", "Just Build"), ("bed", "Bedwars")]

/-- item.get('played', item.get('games_played', item.get('games', 0)))
(source line 119). -/
def getPlayedLike (item : List (String × Json)) : Json :=
  dictGetD item "played"
    (dictGetD item "games_played" (dictGetD item "games" (.num 0)))

/-- item.get('victories', item.get('wins', item.get('victories_count', 0)))
(source line 120). -/
def getVictoriesLike (item : List (String × Json)) : Json :=
  dictGetD item "victories"
    (dictGetD item "wins" (dictGetD item "victories_count" (.num 0)))

/-- The selection loop over a sequence-shaped mode_data (source lines
116-124): the first dict item whose played-like field compares greater
than zero wins; the comparison on a non-numeric value raises. -/
def selectBestStats : List Json → Except PyErr (Option (List (String × Json)))
  | [] => .ok none
  | item :: rest =>
    match item with
    | .obj fields =>
      match pyGtZero (getPlayedLike fields) with
      | .error e => .error e
      | .ok true =>
        .ok (some [("played", getPlayedLike fields),
                   ("victories", getVictoriesLike fields)])
      | .ok false => selectBestStats rest
    | _ => selectBestStats rest

/-- Resolution of mode_data into mode_stats (source lines 113-137):
ok (some stats) proceeds to field extraction, ok none is the continue
branch for an unrecognized type, error is an exception caught at line 155.
Python bool passes isinstance(mode_data, (int, float)). -/
def resolveModeStats : Json → Except PyErr (Option (List (String × Json)))
  | .arr items =>
    if items.isEmpty then
      .ok (some [("played", .num 0), ("victories", .num 0)])
    else
      match selectBestStats items with
      | .error e => .error e
      | .ok (some stats) => .ok (some stats)
      | .ok none => .ok (some [("played", .num 0), ("victories", .num 0)])
  | .obj fields => .ok (some fields)
  | .num n => .ok (some [("played", .num n), ("victories", .num 0)])
  | .bool b =>
    .ok (some [("played", .num (if b then 1 else 0)), ("victories", .num 0)])
  | _ => .ok none

/-- The gamesPlayed probing order (source line 143). -/
def gamesPlayedFields : List String :=
  ["played", "games_played", "games", "total_games", "matches"]

/-- The victories probing order (source line 148). -/
def victoriesFields : List String :=
  ["victories", "wins", "victories_count", "win_count", "total_wins"]

/-- The extraction loop of source lines 143-151: the first field name
present in mode_stats wins, with int(value or 0) under Python truthiness. -/
def extractField (mode_stats : List (String × Json)) (fields : List String) :
    Except PyErr Int :=
  match fields.find? (fun f => (dictGet mode_stats f).isSome) with
  | none => .ok 0
  | some f =>
    match dictGet mode_stats f with
    | none => .ok 0
    | some v => if pyTruthy v then pyInt v else .ok 0

/-- One gamemode under the try/except of source lines 112-156: none is the
continue branch (gamemode omitted), any exception inside degrades the entry
to GameData 0 0. -/
def parseMode (mode_data : Json) : Option GameData :=
  match resolveModeStats mode_data with
  | .error _ => some ⟨0, 0⟩
  | .ok none => none
  | .ok (some stats) =>
    match extractField stats gamesPlayedFields,
          extractField stats victoriesFields with
    | .ok g, .ok v => some ⟨g, v⟩
    | _, _ => some ⟨0, 0⟩

/-- One iteration of the loop in parse_game_data (source lines 108-156),
including the Python semantics of `key in api_data` and api_data[key] for a
non-dict api_data (these run outside the try and so propagate). -/
def parseStep (api_data : Json) (acc : Except PyErr (List (String × GameData)))
    (key : String) : Except PyErr (List (String × GameData)) :=
  match acc with
  | .error e => .error e
  | .ok game_data =>
    match pyContains api_data key with
    | .error e => .error e
    | .ok false => .ok game_data
    | .ok true =>
      match pySubscript api_data key with
      | .error e => .error e
      | .ok md =>
        match parseMode md with
        | none => .ok game_data
        | some gd => .ok (game_data ++ [(key, gd)])

/-- HiveAPI.parse_game_data (source lines 104-158). -/
def parse_game_data (api_data : Json) :
    Except PyErr (List (String × GameData)) :=
  GAMEMODE_KEYS.foldl (parseStep api_data) (.ok [])

/-- Lookup in a parsed snapshot (a Python dict keyed by gamemode). -/
def snapLookup (snap : List (String × GameData)) (key : String) : Option GameData :=
  (snap.find? (fun p => p.1 == key)).map Prod.snd

/-- One gamemode comparison of the activity loop (source lines 184-195):
an event results when games_played increased over the stored baseline,
classified Win when the victories difference is positive, else Loss. -/
def detectEntry (previous_data : List (String × GameData))
    (kc : String × GameData) : Option (String × String) :=
  match snapLookup previous_data kc.1 with
  | none => none
  | some p =>
    if p.games_played < kc.2.games_played then
      some (kc.1, if 0 < kc.2.victories - p.victories then "Win" else "Loss")
    else none

/-- The activity-detection loop of PlayerTracker.update (source lines
184-201): one (gamemode key, result) pair per gamemode of the current
snapshot whose games_played increased over the previous snapshot. -/
def detect (previous_data current_data : List (String × GameData)) :
    List (String × String) :=
  current_data.filterMap (detectEntry previous_data)

/-- Spec-side rendering of claim C1, per gamemode key: the events detect
yields for key k are exactly one event when k is present in both snapshots
and gamesPlayed strictly increased — Win iff victories strictly increased,
Loss otherwise — and no event in every other case. -/
def detectAt (previous_data current_data : List (String × GameData))
    (k : String) : List (String × String) :=
  match snapLookup current_data k, snapLookup previous_data k with
  | some c, some p =>
    if p.games_played < c.games_played then
      [(k, if p.victories < c.victories then "Win" else "Loss")]
    else []
  | _, _ => []

/-- GAMEMODE_MAPPING[key] (source line 197); in update the key always comes
from the parsed snapshot, whose keys all lie in GAMEMODE_KEYS, so the
lookup never fails; the default is unreachable there. -/
def displayName (key : String) : String :=
  ((GAMEMODE_MAPPING.find? (fun p => p.1 == key)).map Prod.snd).getD ""

/-- PlayerActivity (source lines 57-62), timestamps in seconds. -/
structure PlayerActivity where
  gamemode : String
  result : String
  timestamp : Rat
deriving DecidableEq

/-- The mutable fields of PlayerTracker (source lines 161-169). -/
structure TrackerState where
  previous_data : List (String × GameData)
  last_activity : Option PlayerActivity
  error_message : String
deriving DecidableEq

/-- The activity events emitted by one successful update, in loop order
(source lines 184-201). -/
def activityEvents (previous_data current_data : List (String × GameData))
    (now : Rat) : List PlayerActivity :=
  (detect previous_data current_data).map
    (fun e => ⟨displayName e.1, e.2, now⟩)

/-- PlayerTracker.update (source lines 171-203) for a given fetch result:
returns the tracker state after the call, the activity events emitted, and
the exception escaping the call if any (parse_game_data is called after
error_message was already cleared, so an escaping exception leaves the
cleared message behind; no such exception arises for dict payloads). -/
def update (st : TrackerState) (api_data : Option Json) (now : Rat) :
    TrackerState × List PlayerActivity × Option PyErr :=
  match api_data with
  | none => ({ st with error_message := "API Error" }, [], none)
  | some data =>
    let st1 := { st with error_message := "" }
    match parse_game_data data with
    | .error e => (st1, [], some e)
    | .ok current_data =>
      let evs := activityEvents st1.previous_data current_data now
      ({ st1 with
          previous_data := current_data,
          last_activity :=
            match evs.getLast? with
            | some ev => some ev
            | none => st1.last_activity }, evs, none)

/-- The neutral grey background (source line 362): the Neutral freshness. -/
def NEUTRAL_COLOR : String := "#2a2a2a"

/-- The mutable fields of PlayerListItem (source lines 351-363).  The
freshness of the specification is current_background_color (grey for
Neutral, green for Win, red for Loss) and freshnessSetAt is
color_change_time. -/
structure ItemState where
  error_message : String
  last_activity_time : Option Rat
  last_gamemode : String
  last_result : String
  current_background_color : String
  color_change_time : Option Rat
deriving DecidableEq

/-- The initial PlayerListItem state (source lines 354-363). -/
def initItem : ItemState :=
  { error_message := ""
    last_activity_time := none
    last_gamemode := ""
    last_result := ""
    current_background_color := NEUTRAL_COLOR
    color_change_time := none }

/-- PlayerListItem.update_activity (source lines 374-393). -/
def update_activity (it : ItemState) (gamemode result : String)
    (timestamp : Rat) : ItemState :=
  { it with
    last_activity_time := some timestamp
    last_gamemode := gamemode
    last_result := result
    error_message := ""
    current_background_color := if result == "Win" then "#00ff00" else "#ff0000"
    color_change_time := some timestamp }

/-- PlayerListItem.set_error (source lines 395-399). -/
def set_error (it : ItemState) (error_msg : String) : ItemState :=
  { it with
    error_message := error_msg
    current_background_color := NEUTRAL_COLOR }

/-- The 30-second colour revert half of check_color_timeout (source lines
413-420). -/
def checkThirty (it : ItemState) (now : Rat) : ItemState × Bool :=
  match it.color_change_time with
  | some tc =>
    if it.current_background_color ≠ NEUTRAL_COLOR then
      if 30 ≤ now - tc then
        ({ it with current_background_color := NEUTRAL_COLOR }, true)
      else (it, false)
    else (it, false)
  | none => (it, false)

/-- PlayerListItem.check_color_timeout (source lines 401-420), evaluated at
wall-clock time now. -/
def check_color_timeout (it : ItemState) (now : Rat) : ItemState × Bool :=
  match it.last_activity_time with
  | some ta =>
    if 1000 ≤ now - ta then
      ({ it with
          last_activity_time := none
          last_gamemode := ""
          last_result := ""
          current_background_color := NEUTRAL_COLOR }, true)
    else checkThirty it now
  | none => checkThirty it now

/-- One full round-robin pass of polling_loop over a non-empty tracked set
(source lines 903-916): each tracker is visited once, in order, and the
loop sleeps 60/rpm seconds after each visit when that interval is positive.
The per-visit fetch-parse-diff effects are the update function above; here
the cycle is abstracted to the visit order and the accumulated scheduling
sleep. -/
def pollCycle (rpm : Rat) : List String → List String × Rat
  | [] => ([], 0)
  | t :: rest =>
    let interval := 60 / rpm
    let sleepNow := if 0 < interval then interval else 0
    let tail := pollCycle rpm rest
    (t :: tail.1, sleepNow + tail.2)

/-- The protected blacklist (source line 465). -/
def PROTECTED_BLACKLIST : List String :=
  ["zah German", "Zayypoo", "TopazAnt6349", "NurRamon", "sxdaq", "dqrk 1ce",
   "H0nri", "Rcvcx", "GG Kronix", "xqleqn", "zRqbia", "Isixtra", "cb6h"]

/-- username.lower().strip() as in is_blacklisted (source line 709). -/
def normName (s : String) : String := strStrip (strLower s)

/-- The application state relevant to the tracking engine: the trackers
dict (keys in insertion order), the player-list items with their states,
and the two blacklists (source lines 465-474, 521). -/
structure AppState where
  trackers : List String
  items : List (String × ItemState)
  blacklist : List String
  protected_blacklist : List String
deriving DecidableEq

/-- HiveTrackerApp.is_blacklisted (source lines 707-721): case-insensitive
comparison after lowering and stripping both sides. -/
def is_blacklisted (app : AppState) (username : String) : Bool :=
  let username_lower := normName username
  app.protected_blacklist.any (fun p => normName p == username_lower) ||
    app.blacklist.any (fun b => normName b == username_lower)

/-- Outcome of the add-user operation. -/
inductive AddOutcome where
  | emptyInput : AddOutcome
  | blacklisted : AddOutcome
  | alreadyTracking : AddOutcome
  | added : AddOutcome
deriving DecidableEq

/-- HiveTrackerApp.add_user (source lines 723-755) on the text entered in
the dialog; AddUserDialog.get_username strips it first (line 263).  The
duplicate check (line 739) is an exact, case-sensitive dict lookup. -/
def add_user (app : AppState) (entered : String) : AppState × AddOutcome :=
  let username := strStrip entered
  if username = "" then (app, .emptyInput)
  else if is_blacklisted app username then (app, .blacklisted)
  else if app.trackers.contains username then (app, .alreadyTracking)
  else
    ({ app with
        trackers := app.trackers ++ [username]
        items := app.items ++ [(username, initItem)] }, .added)

/-- Removal of the first list item with a given username (source lines
763-767). -/
def removeFirstItem : List (String × ItemState) → String →
    List (String × ItemState)
  | [], _ => []
  | it :: rest, u => if it.1 == u then rest else it :: removeFirstItem rest u

/-- HiveTrackerApp.remove_user (source lines 757-767). -/
def remove_user (app : AppState) (username : String) : AppState :=
  if app.trackers.contains username then
    { app with
        trackers := app.trackers.erase username
        items := removeFirstItem app.items username }
  else app

/-- Update of the first list item with a given username (source lines
847-854). -/
def updateFirstItem (items : List (String × ItemState)) (username : String)
    (gamemode result : String) (timestamp : Rat) : List (String × ItemState) :=
  match items with
  | [] => []
  | it :: rest =>
    if it.1 == username then
      (it.1, update_activity it.2 gamemode result timestamp) :: rest
    else it :: updateFirstItem rest username gamemode result timestamp

/-- HiveTrackerApp.on_activity_detected (source lines 838-864): updates the
first matching list item; when no item matches, nothing is changed (the
notification sound and re-sort happen only in the found case and do not
touch this state).  The trackers dict is never written here. -/
def on_activity_detected (app : AppState) (username gamemode result : String)
    (timestamp : Rat) : AppState :=
  { app with
      items := updateFirstItem app.items username gamemode result timestamp }

/-- The snapshot parse_game_data builds for a dict payload: the gamemode
keys in GAMEMODE_KEYS order, each present key processed by parseMode. -/
def parsedObj (fields : List (String × Json)) : List (String × GameData) :=
  GAMEMODE_KEYS.filterMap
    (fun k => ((dictGet fields k).bind parseMode).map (fun gd => (k, gd)))

/-- Whether the per-gamemode processing raises internally, which is what
the except at source line 155 catches. -/
def modeRaises (md : Json) : Bool :=
  match resolveModeStats md with
  | .error _ => true
  | .ok none => false
  | .ok (some stats) =>
    match extractField stats gamesPlayedFields,
          extractField stats victoriesFields with
    | .ok _, .ok _ => false
    | _, _ => true

/-- Non-negativity of one leaf value that the parser may coerce with
int(): a non-negative number; or a string that reads as a non-negative
integer, or that does not read as an integer and carries no ASCII minus
sign — int can only produce a negative value from a minus-signed string,
so such strings never contribute a negative counter even where Python
reads strings this ASCII model does not (e.g. non-ASCII digits).
Containers and null never contribute a negative value. -/
def valNonneg : Json → Bool
  | .num n => decide (0 ≤ n)
  | .str s =>
    match strToIntOpt s with
    | some n => decide (0 ≤ n)
    | none => !(s.toList.contains '-')
  | _ => true

/-- Non-negativity of every field value of one record. -/
def fieldsNonneg (fs : List (String × Json)) : Bool :=
  fs.all (fun p => valNonneg p.2)

/-- Non-negativity over one mode_data: the bare number itself, every field
value of a record, or every field value of each record element of a
sequence. -/
def modeNonneg : Json → Bool
  | .arr items =>
    items.all (fun it =>
      match it with
      | .obj fs => fieldsNonneg fs
      | _ => true)
  | .obj fs => fieldsNonneg fs
  | .num n => decide (0 ≤ n)
  | _ => true

/-- Non-negativity over every top-level value of a dict payload, in the
sense of modeNonneg. -/
def objNonneg (fields : List (String × Json)) : Bool :=
  fields.all (fun p => modeNonneg p.2)

/-- Spec-side rendering of the amended sequence-selection rule (claim C6):
the first record whose played-like chain is a positive number is selected,
pairing that number with the value of the victories-like chain (which
probes only victories, wins, victories_count); none when no record
qualifies. -/
def specSelect : List Json → Option (Int × Int)
  | [] => none
  | item :: rest =>
    match item with
    | .obj fs =>
      match getPlayedLike fs, getVictoriesLike fs with
      | .num n, .num m => if 0 < n then some (n, m) else specSelect rest
      | _, _ => specSelect rest
    | _ => specSelect rest

/-- The amended per-sequence extraction result: the selected pair, or
(0, 0) when no record qualifies. -/
def specListResolve (items : List Json) : Int × Int :=
  (specSelect items).getD (0, 0)

/-- A record is clean when its played-like and victories-like chains both
resolve to numbers (the exception-free case claim C6 describes). -/
def cleanRecord (fs : List (String × Json)) : Bool :=
  (match getPlayedLike fs with
   | Json.num _ => true
   | _ => false) &&
  (match getVictoriesLike fs with
   | Json.num _ => true
   | _ => false)

/-- A sequence of records in the sense of claim C6: every element is a
clean record. -/
def cleanItems (items : List Json) : Bool :=
  items.all (fun it =>
    match it with
    | Json.obj fs => cleanRecord fs
    | _ => false)

/-- Spec-side rendering of the claim C8 field-priority rule: the first
field of the priority list that is present in the record wins, a null
value coercing to 0. -/
def specFieldResolve (stats : List (String × Json)) : List String → Int
  | [] => 0
  | f :: rest =>
    match dictGet stats f with
    | some (Json.num n) => n
    | some _ => 0
    | none => specFieldResolve stats rest

/-- The values a record holds at the given priority fields are numbers or
null (the exception-free case claim C8 describes). -/
def cleanFieldVals (stats : List (String × Json)) (fields : List String) :
    Bool :=
  fields.all (fun f =>
    match dictGet stats f with
    | some (Json.num _) => true
    | some Json.null => true
    | some _ => false
    | none => true)

/-! ### Lemmas: characterization of the parser on dict payloads -/

lemma any_key_eq_isSome (fields : List (String × Json)) (k : String) :
    fields.any (fun p => p.1 == k) = (dictGet fields k).isSome := by
  induction fields with
  | nil => rfl
  | cons p rest ih =>
    cases hpk : (p.1 == k) with
    | true =>
      have h2 : List.find? (fun q => q.1 == k) (p :: rest) = some p :=
        List.find?_cons_of_pos _ (by simp [hpk])
      simp [dictGet, List.any_cons, hpk, h2]
    | false =>
      have h2 : List.find? (fun q => q.1 == k) (p :: rest) =
          List.find? (fun q => q.1 == k) rest :=
        List.find?_cons_of_neg _ (by simp [hpk])
      simp only [dictGet, List.any_cons, hpk, Bool.false_or, h2]
      simpa [dictGet] using ih

lemma parseStep_obj (fields : List (String × Json)) (acc : List (String × GameData))
    (k : String) :
    parseStep (Json.obj fields) (.ok acc) k =
      .ok (acc ++
        (((dictGet fields k).bind parseMode).map (fun gd => (k, gd))).toList) := by
  cases h : dictGet fields k with
  | none =>
    have hany : fields.any (fun p => p.1 == k) = false := by
      rw [any_key_eq_isSome, h]; rfl
    simp [parseStep, pyContains, hany, h]
  | some md =>
    have hany : fields.any (fun p => p.1 == k) = true := by
      rw [any_key_eq_isSome, h]; rfl
    cases hpm : parseMode md with
    | none => simp [parseStep, pyContains, pySubscript, hany, h, hpm]
    | some gd => simp [parseStep, pyContains, pySubscript, hany, h, hpm]

lemma foldl_parseStep_obj (fields : List (String × Json)) (keys : List String)
    (acc : List (String × GameData)) :
    keys.foldl (parseStep (Json.obj fields)) (.ok acc) =
      .ok (acc ++ keys.filterMap
        (fun k => ((dictGet fields k).bind parseMode).map (fun gd => (k, gd)))) := by
  induction keys generalizing acc with
  | nil => simp
  | cons k rest ih =>
    rw [List.foldl_cons, parseStep_obj, ih, List.filterMap_cons]
    cases h : ((dictGet fields k).bind parseMode).map (fun gd => (k, gd)) with
    | none => simp [h]
    | some e => simp [h]

/-- parse_game_data never raises on a dict payload and produces parsedObj. -/
lemma parse_obj_eq (fields : List (String × Json)) :
    parse_game_data (.obj fields) = .ok (parsedObj fields) := by
  simpa [parse_game_data, parsedObj] using
    foldl_parseStep_obj fields GAMEMODE_KEYS []

lemma snapLookup_cons (p : String × GameData) (l : List (String × GameData))
    (k : String) :
    snapLookup (p :: l) k =
      if (p.1 == k) = true then some p.2 else snapLookup l k := by
  cases h : (p.1 == k) with
  | true => simp [snapLookup, List.find?_cons_of_pos, h]
  | false => simp [snapLookup, List.find?_cons_of_neg, h]

lemma snapLookup_filterMap_not_mem (f : String → Option GameData)
    (keys : List String) (k : String) (hk : k ∉ keys) :
    snapLookup (keys.filterMap (fun k2 => (f k2).map (fun gd => (k2, gd)))) k =
      none := by
  induction keys with
  | nil => rfl
  | cons k0 rest ih =>
    have hk0 : k0 ≠ k := fun h => hk (h ▸ List.mem_cons_self k0 rest)
    have hkr : k ∉ rest := fun h => hk (List.mem_cons_of_mem _ h)
    rw [List.filterMap_cons]
    cases h : (f k0).map (fun gd => (k0, gd)) with
    | none => exact ih hkr
    | some e =>
      obtain ⟨gd, hgd, he⟩ := Option.map_eq_some'.mp h
      rw [← he, snapLookup_cons]
      simp only [beq_iff_eq]
      rw [if_neg (by simpa using hk0)]
      exact ih hkr

lemma snapLookup_filterMap (f : String → Option GameData) (keys : List String)
    (k : String) (hnd : keys.Nodup) (hk : k ∈ keys) :
    snapLookup (keys.filterMap (fun k2 => (f k2).map (fun gd => (k2, gd)))) k =
      f k := by
  induction keys with
  | nil => cases hk
  | cons k0 rest ih =>
    obtain ⟨hk0r, hndr⟩ := List.nodup_cons.mp hnd
    rw [List.filterMap_cons]
    by_cases hk0 : k0 = k
    · subst hk0
      cases h : (f k0).map (fun gd => (k0, gd)) with
      | none =>
        rw [Option.map_eq_none'.mp h]
        exact snapLookup_filterMap_not_mem f rest k0 hk0r
      | some e =>
        obtain ⟨gd, hgd, he⟩ := Option.map_eq_some'.mp h
        rw [← he, snapLookup_cons]
        simp [hgd]
    · have hkr : k ∈ rest := by
        rcases List.mem_cons.mp hk with h | h
        · exact absurd h.symm hk0
        · exact h
      cases h : (f k0).map (fun gd => (k0, gd)) with
      | none => exact ih hndr hkr
      | some e =>
        obtain ⟨gd, hgd, he⟩ := Option.map_eq_some'.mp h
        rw [← he, snapLookup_cons]
        simp only [beq_iff_eq]
        rw [if_neg (by simpa using hk0)]
        exact ih hndr hkr

lemma GAMEMODE_KEYS_nodup : GAMEMODE_KEYS.Nodup := by decide

lemma parseMode_of_raises (md : Json) (h : modeRaises md = true) :
    parseMode md = some ⟨0, 0⟩ := by
  unfold modeRaises at h
  unfold parseMode
  cases hr : resolveModeStats md with
  | error e => rfl
  | ok o =>
    rw [hr] at h
    cases o with
    | none => simp at h
    | some stats =>
      simp only at h ⊢
      cases hg : extractField stats gamesPlayedFields with
      | error e => simp [hg]
      | ok g =>
        rw [hg] at h
        cases hv : extractField stats victoriesFields with
        | error e => simp [hg, hv]
        | ok v =>
          rw [hv] at h
          simp at h

/-- Per-gamemode access into the parsed snapshot of a dict payload. -/
lemma snapLookup_parsedObj (fields : List (String × Json)) (k : String)
    (hk : k ∈ GAMEMODE_KEYS) :
    snapLookup (parsedObj fields) k = (dictGet fields k).bind parseMode :=
  snapLookup_filterMap _ _ _ GAMEMODE_KEYS_nodup hk

/-- Claim C2, amended to dict payloads: for every JSON object input,
HiveAPI.parse_game_data returns a snapshot without raising; each gamemode
key is processed independently by parseMode; a gamemode whose raw value
has an unrecognized type (neither sequence, record, nor number — e.g. a
string, or null) is omitted from the snapshot rather than defaulted; and a
structural anomaly inside a recognized shape (an exception inside the
per-gamemode try) degrades that gamemode's entry to gamesPlayed 0,
victories 0. -/
theorem c2_parser_totality (fields : List (String × Json)) :
    parse_game_data (Json.obj fields) = .ok (parsedObj fields) ∧
    (∀ k, k ∈ GAMEMODE_KEYS →
      snapLookup (parsedObj fields) k = (dictGet fields k).bind parseMode) ∧
    (∀ s, parseMode (Json.str s) = none) ∧
    parseMode Json.null = none ∧
    (∀ md, modeRaises md = true → parseMode md = some ⟨0, 0⟩) :=
  ⟨parse_obj_eq fields, fun k hk => snapLookup_parsedObj fields k hk,
    fun _ => rfl, rfl, fun md h => parseMode_of_raises md h⟩

/-- Witness for c2_parser_totality at the spec's concrete scenario
(an unexpected string payload for sky is omitted without raising), plus a
concrete structural anomaly (int("abc") raising inside the try) degrading
to zeros. -/
theorem c2_witness :
    parse_game_data (Json.obj [("sky", Json.str "unexpected_string")]) =
      .ok (parsedObj [("sky", Json.str "unexpected_string")]) ∧
    snapLookup (parsedObj [("sky", Json.str "unexpected_string")]) "sky" =
      (dictGet [("sky", Json.str "unexpected_string")] "sky").bind parseMode ∧
    parseMode (Json.obj [("played", Json.str "abc")]) = some ⟨0, 0⟩ :=
  ⟨(c2_parser_totality _).1,
    (c2_parser_totality _).2.1 "sky" (by decide),
    (c2_parser_totality []).2.2.2.2 (Json.obj [("played", Json.str "abc")]) rfl⟩

/-- Counterexample to claim C2 as stated: the JSON-shaped input 0, which
is not an object, makes parse_game_data raise — the membership test
"sky" in 0 raises TypeError at source line 109, outside the per-gamemode
try — so the function does not return a snapshot for every JSON-shaped
input value.  (Other non-object inputs can succeed, e.g. an empty array
yields the empty snapshot; only this existence of a raising input is
claimed.) -/
theorem c2_counterexample :
    parse_game_data (Json.num 0) = .error PyErr.typeError := rfl

/-! ### Lemmas: non-negativity propagation (claim C7) -/

lemma dictGet_all {P : Json → Bool} {fs : List (String × Json)} {k : String}
    {v : Json} (hfs : fs.all (fun p => P p.2) = true)
    (h : dictGet fs k = some v) : P v = true := by
  unfold dictGet at h
  cases hf : fs.find? (fun p => p.1 == k) with
  | none => rw [hf] at h; cases h
  | some p =>
    rw [hf] at h
    simp only [Option.map_some'] at h
    have hmem := List.mem_of_find?_eq_some hf
    have hp := List.all_eq_true.mp hfs p hmem
    rw [← Option.some_inj.mp h]
    exact hp

lemma pyInt_nonneg {v : Json} {n : Int} (hv : valNonneg v = true)
    (h : pyInt v = .ok n) : 0 ≤ n := by
  cases v with
  | null => simp [pyInt] at h
  | bool b => cases b <;> simp [pyInt] at h <;> omega
  | num m =>
    simp [pyInt] at h
    simp [valNonneg] at hv
    omega
  | str s =>
    simp only [pyInt] at h
    cases hs : strToIntOpt s with
    | none => rw [hs] at h; cases h
    | some m =>
      rw [hs] at h
      simp only [valNonneg, hs, decide_eq_true_eq] at hv
      simp at h
      omega
  | arr xs => simp [pyInt] at h
  | obj fs => simp [pyInt] at h

lemma extractField_nonneg {stats : List (String × Json)} {flds : List String}
    {n : Int} (hfs : fieldsNonneg stats = true)
    (h : extractField stats flds = .ok n) : 0 ≤ n := by
  unfold extractField at h
  cases hf : flds.find? (fun f => (dictGet stats f).isSome) with
  | none => rw [hf] at h; simp at h; omega
  | some f =>
    rw [hf] at h
    simp only at h
    cases hg : dictGet stats f with
    | none => rw [hg] at h; simp at h; omega
    | some v =>
      rw [hg] at h
      simp only at h
      cases ht : pyTruthy v with
      | false => rw [ht] at h; simp at h; omega
      | true =>
        rw [ht] at h
        simp only [if_true] at h
        exact pyInt_nonneg (dictGet_all hfs hg) h

lemma dictGetD_valNonneg {fs : List (String × Json)} {k : String} {dflt : Json}
    (hfs : fieldsNonneg fs = true) (hd : valNonneg dflt = true) :
    valNonneg (dictGetD fs k dflt) = true := by
  unfold dictGetD
  cases h : dictGet fs k with
  | none => simpa using hd
  | some v => simpa using dictGet_all hfs h

lemma getPlayedLike_nonneg {fs : List (String × Json)}
    (hfs : fieldsNonneg fs = true) : valNonneg (getPlayedLike fs) = true :=
  dictGetD_valNonneg hfs (dictGetD_valNonneg hfs (dictGetD_valNonneg hfs rfl))

lemma getVictoriesLike_nonneg {fs : List (String × Json)}
    (hfs : fieldsNonneg fs = true) : valNonneg (getVictoriesLike fs) = true :=
  dictGetD_valNonneg hfs (dictGetD_valNonneg hfs (dictGetD_valNonneg hfs rfl))

lemma selectBestStats_nonneg {items : List Json} {stats : List (String × Json)}
    (hits : (items.all (fun it =>
      match it with
      | Json.obj fs => fieldsNonneg fs
      | _ => true)) = true)
    (h : selectBestStats items = .ok (some stats)) :
    fieldsNonneg stats = true := by
  induction items with
  | nil => simp [selectBestStats] at h
  | cons item rest ih =>
    rw [List.all_cons, Bool.and_eq_true] at hits
    obtain ⟨hit, hrest⟩ := hits
    cases item with
    | obj fs =>
      unfold selectBestStats at h
      simp only at h
      cases hgz : pyGtZero (getPlayedLike fs) with
      | error e => rw [hgz] at h; cases h
      | ok b =>
        rw [hgz] at h
        cases b with
        | false => exact ih hrest h
        | true =>
          simp only [Except.ok.injEq, Option.some.injEq] at h
          rw [← h]
          simp only [fieldsNonneg, List.all_cons, List.all_nil,
            Bool.and_true]
          simp only at hit
          rw [Bool.and_eq_true]
          exact ⟨getPlayedLike_nonneg hit, getVictoriesLike_nonneg hit⟩
    | null => exact ih hrest h
    | bool b => exact ih hrest h
    | num m => exact ih hrest h
    | str s => exact ih hrest h
    | arr xs => exact ih hrest h

lemma resolveModeStats_nonneg {md : Json} {stats : List (String × Json)}
    (hmd : modeNonneg md = true) (h : resolveModeStats md = .ok (some stats)) :
    fieldsNonneg stats = true := by
  cases md with
  | null => simp [resolveModeStats] at h
  | str s => simp [resolveModeStats] at h
  | bool b =>
    simp only [resolveModeStats, Except.ok.injEq, Option.some.injEq] at h
    rw [← h]
    cases b <;> rfl
  | num n =>
    simp only [resolveModeStats, Except.ok.injEq, Option.some.injEq] at h
    rw [← h]
    simp only [modeNonneg, decide_eq_true_eq] at hmd
    simp [fieldsNonneg, valNonneg, hmd]
  | obj fs =>
    simp only [resolveModeStats, Except.ok.injEq, Option.some.injEq] at h
    rw [← h]
    exact hmd
  | arr items =>
    unfold resolveModeStats at h
    simp only at h
    cases hni : items.isEmpty with
    | true => rw [hni] at h; simp at h; rw [← h]; rfl
    | false =>
      rw [hni] at h
      simp only [Bool.false_eq_true, if_false] at h
      cases hs : selectBestStats items with
      | error e => rw [hs] at h; cases h
      | ok o =>
        rw [hs] at h
        cases o with
        | none => simp at h; rw [← h]; rfl
        | some s =>
          simp at h
          rw [← h]
          exact selectBestStats_nonneg hmd hs

lemma parseMode_nonneg {md : Json} {gd : GameData} (hmd : modeNonneg md = true)
    (h : parseMode md = some gd) :
    0 ≤ gd.games_played ∧ 0 ≤ gd.victories := by
  unfold parseMode at h
  cases hr : resolveModeStats md with
  | error e =>
    rw [hr] at h
    simp at h
    rw [← h]
    exact ⟨le_refl 0, le_refl 0⟩
  | ok o =>
    rw [hr] at h
    cases o with
    | none => simp at h
    | some stats =>
      have hfs := resolveModeStats_nonneg hmd hr
      simp only at h
      cases hg : extractField stats gamesPlayedFields with
      | error e =>
        rw [hg] at h
        simp at h
        rw [← h]
        exact ⟨le_refl 0, le_refl 0⟩
      | ok g =>
        rw [hg] at h
        cases hv : extractField stats victoriesFields with
        | error e =>
          rw [hv] at h
          simp at h
          rw [← h]
          exact ⟨le_refl 0, le_refl 0⟩
        | ok v =>
          rw [hv] at h
          simp at h
          rw [← h]
          exact ⟨extractField_nonneg hfs hg, extractField_nonneg hfs hv⟩

lemma mem_parsedObj {fields : List (String × Json)} {k : String}
    {gd : GameData} (h : (k, gd) ∈ parsedObj fields) :
    ∃ md, dictGet fields k = some md ∧ parseMode md = some gd := by
  unfold parsedObj at h
  obtain ⟨k2, hk2, hmap⟩ := List.mem_filterMap.mp h
  obtain ⟨gd2, hbind, heq⟩ := Option.map_eq_some'.mp hmap
  injection heq with hk2k hgd
  subst hk2k
  subst hgd
  obtain ⟨md, hget, hparse⟩ := Option.bind_eq_some.mp hbind
  exact ⟨md, hget, hparse⟩

/-- Claim C7, amended: the GameData fields produced by parse_game_data are
integers, and they are non-negative provided that every number occurring
as a gamemode value, as a field value of a record-shaped gamemode, or as
a field value of a record inside a sequence-shaped gamemode is
non-negative, and that every string value there either reads as a
non-negative integer or carries no minus sign; an input carrying a
negative counter propagates it into the snapshot (see the
counterexample). -/
theorem c7_nonneg (fields : List (String × Json))
    (snap : List (String × GameData)) (hn : objNonneg fields = true)
    (hp : parse_game_data (Json.obj fields) = .ok snap) :
    ∀ k gd, (k, gd) ∈ snap → 0 ≤ gd.games_played ∧ 0 ≤ gd.victories := by
  rw [parse_obj_eq] at hp
  injection hp with hp
  subst hp
  intro k gd hmem
  obtain ⟨md, hget, hparse⟩ := mem_parsedObj hmem
  exact parseMode_nonneg (dictGet_all hn hget) hparse

/-- Witness for c7_nonneg at a concrete payload. -/
theorem c7_witness :
    objNonneg [("sky", Json.num 3)] = true ∧
    parse_game_data (Json.obj [("sky", Json.num 3)]) =
      .ok [("sky", ⟨3, 0⟩)] ∧
    (0 ≤ (GameData.mk 3 0).games_played ∧ 0 ≤ (GameData.mk 3 0).victories) :=
  ⟨rfl, rfl,
    c7_nonneg [("sky", Json.num 3)] [("sky", ⟨3, 0⟩)] rfl rfl "sky" ⟨3, 0⟩
      (by simp)⟩

/-- Counterexample to claim C7 as stated: a negative bare-number payload
yields a snapshot entry with negative gamesPlayed, so the GameData values
returned by parse_game_data are not always non-negative. -/
theorem c7_counterexample :
    parse_game_data (Json.obj [("sky", Json.num (-5))]) =
      .ok [("sky", ⟨-5, 0⟩)] ∧
    (GameData.mk (-5) 0).games_played < 0 := ⟨rfl, by decide⟩

/-! ### Lemmas: sequence-shaped mode_data selection (claim C6) -/

lemma extract_played_pair (n m : Int) (h0 : 0 < n) :
    extractField [("played", Json.num n), ("victories", Json.num m)]
      gamesPlayedFields = .ok n := by
  show (if pyTruthy (Json.num n) = true then pyInt (Json.num n) else .ok 0) =
    .ok n
  have ht : pyTruthy (Json.num n) = true := by
    simp only [pyTruthy, Bool.not_eq_true', beq_eq_false_iff_ne, ne_eq]
    omega
  rw [ht]
  rfl

lemma extract_vic_pair (n m : Int) :
    extractField [("played", Json.num n), ("victories", Json.num m)]
      victoriesFields = .ok m := by
  show (if pyTruthy (Json.num m) = true then pyInt (Json.num m) else .ok 0) =
    .ok m
  by_cases hm : m = 0
  · subst hm; rfl
  · have ht : pyTruthy (Json.num m) = true := by
      simp only [pyTruthy, Bool.not_eq_true', beq_eq_false_iff_ne, ne_eq]
      exact hm
    rw [ht]
    rfl

lemma specSelect_pos : ∀ {items : List Json} {n m : Int},
    specSelect items = some (n, m) → 0 < n := by
  intro items
  induction items with
  | nil => intro n m h; cases h
  | cons item rest ih =>
    intro n m h
    unfold specSelect at h
    cases item with
    | obj fs =>
      simp only at h
      cases hp : getPlayedLike fs with
      | num n0 =>
        rw [hp] at h
        cases hv : getVictoriesLike fs with
        | num m0 =>
          rw [hv] at h
          simp only at h
          split at h
          · simp only [Option.some.injEq, Prod.mk.injEq] at h
            obtain ⟨h1, h2⟩ := h
            subst h1
            assumption
          · exact ih h
        | null => rw [hv] at h; exact ih h
        | bool b => rw [hv] at h; exact ih h
        | str s => rw [hv] at h; exact ih h
        | arr xs => rw [hv] at h; exact ih h
        | obj fs2 => rw [hv] at h; exact ih h
      | null => rw [hp] at h; exact ih h
      | bool b => rw [hp] at h; exact ih h
      | str s => rw [hp] at h; exact ih h
      | arr xs => rw [hp] at h; exact ih h
      | obj fs2 => rw [hp] at h; exact ih h
    | null => exact ih h
    | bool b => exact ih h
    | num n0 => exact ih h
    | str s => exact ih h
    | arr xs => exact ih h

lemma selectBestStats_clean : ∀ (items : List Json),
    cleanItems items = true →
    selectBestStats items =
      .ok ((specSelect items).map
        (fun pr => [("played", Json.num pr.1), ("victories", Json.num pr.2)])) := by
  intro items
  induction items with
  | nil => intro h; rfl
  | cons item rest ih =>
    intro hc
    simp only [cleanItems, List.all_cons, Bool.and_eq_true] at hc
    obtain ⟨hit, hrest⟩ := hc
    have hrest2 : cleanItems rest = true := hrest
    cases item with
    | obj fs =>
      simp only at hit
      unfold cleanRecord at hit
      rw [Bool.and_eq_true] at hit
      obtain ⟨hp1, hv1⟩ := hit
      cases hp : getPlayedLike fs with
      | num n0 =>
        cases hv : getVictoriesLike fs with
        | num m0 =>
          unfold selectBestStats specSelect
          simp only
          rw [hp, hv]
          simp only
          by_cases h0 : 0 < n0
          · simp [pyGtZero, h0]
          · simp [pyGtZero, h0, ih hrest2]
        | null => rw [hv] at hv1; simp at hv1
        | bool b => rw [hv] at hv1; simp at hv1
        | str s => rw [hv] at hv1; simp at hv1
        | arr xs => rw [hv] at hv1; simp at hv1
        | obj fs2 => rw [hv] at hv1; simp at hv1
      | null => rw [hp] at hp1; simp at hp1
      | bool b => rw [hp] at hp1; simp at hp1
      | str s => rw [hp] at hp1; simp at hp1
      | arr xs => rw [hp] at hp1; simp at hp1
      | obj fs2 => rw [hp] at hp1; simp at hp1
    | null => simp at hit
    | bool b => simp at hit
    | num n0 => simp at hit
    | str s => simp at hit
    | arr xs => simp at hit

lemma parseMode_arr_none (items : List Json) (hne : items ≠ [])
    (hsel : selectBestStats items = .ok none) :
    parseMode (Json.arr items) = some ⟨0, 0⟩ := by
  have hie : items.isEmpty = false := by
    cases items with
    | nil => exact absurd rfl hne
    | cons a l => rfl
  have e1 : extractField [("played", Json.num 0), ("victories", Json.num 0)]
      gamesPlayedFields = Except.ok 0 := rfl
  have e2 : extractField [("played", Json.num 0), ("victories", Json.num 0)]
      victoriesFields = Except.ok 0 := rfl
  unfold parseMode resolveModeStats
  simp only [hie, Bool.false_eq_true, if_false, hsel, e1, e2]

lemma parseMode_arr_some (items : List Json) (hne : items ≠ []) (n m : Int)
    (h0 : 0 < n)
    (hsel : selectBestStats items =
      .ok (some [("played", Json.num n), ("victories", Json.num m)])) :
    parseMode (Json.arr items) = some ⟨n, m⟩ := by
  have hie : items.isEmpty = false := by
    cases items with
    | nil => exact absurd rfl hne
    | cons a l => rfl
  have e1 := extract_played_pair n m h0
  have e2 := extract_vic_pair n m
  unfold parseMode resolveModeStats
  simp only [hie, Bool.false_eq_true, if_false, hsel, e1, e2]

/-- Claim C6, amended: for a gamemode whose raw mode_data is a sequence of
records (clean in the sense of cleanItems), the parser selects the first
record whose played-like field (probed in order played, games_played,
games) is greater than zero, using played 0, victories 0 if none
qualifies, and the victories of the selected record come from probing only
victories, wins, victories_count in priority order — win_count and
total_wins are not consulted for sequence-shaped data, so a record carrying
only win_count yields victories 0 (see the counterexample). -/
theorem c6_list_selection (items : List Json) (hc : cleanItems items = true) :
    parseMode (Json.arr items) =
      some ⟨(specListResolve items).1, (specListResolve items).2⟩ := by
  cases items with
  | nil => rfl
  | cons item rest =>
    have hsel := selectBestStats_clean (item :: rest) hc
    cases hs : specSelect (item :: rest) with
    | none =>
      rw [hs, Option.map_none'] at hsel
      have hr : specListResolve (item :: rest) = (0, 0) := by
        simp [specListResolve, hs]
      rw [hr]
      exact parseMode_arr_none (item :: rest) (by simp) hsel
    | some pr =>
      obtain ⟨n, m⟩ := pr
      rw [hs, Option.map_some'] at hsel
      have hr : specListResolve (item :: rest) = (n, m) := by
        simp [specListResolve, hs]
      rw [hr]
      exact parseMode_arr_some (item :: rest) (by simp) n m
        (specSelect_pos hs) hsel

/-- Witness for c6_list_selection: a clean one-record sequence carrying
played 2, wins 1 resolves to gamesPlayed 2, victories 1. -/
theorem c6_witness :
    cleanItems [Json.obj [("played", Json.num 2), ("wins", Json.num 1)]] =
      true ∧
    parseMode
        (Json.arr [Json.obj [("played", Json.num 2), ("wins", Json.num 1)]]) =
      some
        ⟨(specListResolve
            [Json.obj [("played", Json.num 2), ("wins", Json.num 1)]]).1,
         (specListResolve
            [Json.obj [("played", Json.num 2), ("wins", Json.num 1)]]).2⟩ :=
  ⟨rfl, c6_list_selection _ rfl⟩

/-- Counterexample to claim C6 as stated: a selected record carrying only
win_count yields victories 0, not the win_count value 5: the probing chain
for sequence-shaped data stops at victories_count (source line 120). -/
theorem c6_counterexample :
    parse_game_data (Json.obj [("sky",
      Json.arr [Json.obj [("played", Json.num 1), ("win_count", Json.num 5)]])]) =
      .ok [("sky", ⟨1, 0⟩)] ∧
    (GameData.mk 1 0).victories ≠ 5 := ⟨rfl, by decide⟩

/-! ### Lemmas: dict-shaped field-priority resolution (claim C8) -/

lemma extractField_clean : ∀ (flds : List String)
    (stats : List (String × Json)), cleanFieldVals stats flds = true →
    extractField stats flds = .ok (specFieldResolve stats flds) := by
  intro flds
  induction flds with
  | nil => intro stats h; rfl
  | cons f rest ih =>
    intro stats hc
    simp only [cleanFieldVals, List.all_cons, Bool.and_eq_true] at hc
    obtain ⟨hf, hrest⟩ := hc
    unfold extractField specFieldResolve
    cases hg : dictGet stats f with
    | none =>
      rw [List.find?_cons_of_neg _ (by simp [hg])]
      have hrec := ih stats hrest
      unfold extractField at hrec
      simp only
      exact hrec
    | some v =>
      rw [List.find?_cons_of_pos _ (by simp [hg])]
      rw [hg] at hf
      simp only [hg]
      cases v with
      | num n =>
        by_cases hn : n = 0
        · subst hn; rfl
        · have ht : pyTruthy (Json.num n) = true := by
            simp only [pyTruthy, Bool.not_eq_true', beq_eq_false_iff_ne, ne_eq]
            exact hn
          rw [ht]
          rfl
      | null => rfl
      | bool b => simp at hf
      | str s => simp at hf
      | arr xs => simp at hf
      | obj fs => simp at hf

/-- Claim C8: for every gamemode record resolved by the parser (a
dict-shaped mode_data whose priority-field values are numbers or null),
gamesPlayed is taken from the first present field among played,
games_played, games, total_games, matches — a null value coercing to 0 —
and victories is resolved the same way over victories, wins,
victories_count, win_count, total_wins. -/
theorem c8_field_priority (stats : List (String × Json))
    (hgp : cleanFieldVals stats gamesPlayedFields = true)
    (hvc : cleanFieldVals stats victoriesFields = true) :
    parseMode (Json.obj stats) =
      some ⟨specFieldResolve stats gamesPlayedFields,
            specFieldResolve stats victoriesFields⟩ := by
  have e1 := extractField_clean gamesPlayedFields stats hgp
  have e2 := extractField_clean victoriesFields stats hvc
  unfold parseMode
  simp only [resolveModeStats, e1, e2]

/-- Witness for c8_field_priority: given both played and games_played, the
played value 7 wins; a null victories coerces to 0; given only games, the
games value 4 is used. -/
theorem c8_witness :
    cleanFieldVals
        [("games_played", Json.num 3), ("played", Json.num 7),
         ("victories", Json.null)] gamesPlayedFields = true ∧
    parseMode (Json.obj
        [("games_played", Json.num 3), ("played", Json.num 7),
         ("victories", Json.null)]) = some ⟨7, 0⟩ ∧
    parseMode (Json.obj [("games", Json.num 4)]) = some ⟨4, 0⟩ :=
  ⟨rfl,
    c8_field_priority
      [("games_played", Json.num 3), ("played", Json.num 7),
       ("victories", Json.null)] rfl rfl,
    c8_field_priority [("games", Json.num 4)] rfl rfl⟩

/-! ### Lemmas: activity detection (claim C1) -/

lemma detectEntry_key {prev : List (String × GameData)}
    {kc : String × GameData} {e : String × String}
    (h : detectEntry prev kc = some e) : e.1 = kc.1 := by
  unfold detectEntry at h
  cases hl : snapLookup prev kc.1 with
  | none => rw [hl] at h; cases h
  | some p =>
    rw [hl] at h
    simp only at h
    split at h
    · simp only [Option.some.injEq] at h
      rw [← h]
    · cases h

lemma filter_detect_not_mem (prev cur : List (String × GameData)) (k : String)
    (hk : k ∉ cur.map Prod.fst) :
    (detect prev cur).filter (fun e => e.1 == k) = [] := by
  induction cur with
  | nil => rfl
  | cons kc rest ih =>
    have hk1 : kc.1 ≠ k := by
      intro heq
      exact hk (by simp [heq])
    have hkr : k ∉ rest.map Prod.fst := fun h => hk (by simp [h])
    unfold detect at ih ⊢
    rw [List.filterMap_cons]
    cases hd : detectEntry prev kc with
    | none => exact ih hkr
    | some e =>
      rw [List.filter_cons]
      have he : (e.1 == k) = false := by
        rw [detectEntry_key hd]
        exact beq_eq_false_iff_ne.mpr hk1
      simp only [he, Bool.false_eq_true, if_false]
      exact ih hkr

lemma detect_filter (prev cur : List (String × GameData)) (k : String)
    (hnd : (cur.map Prod.fst).Nodup) :
    (detect prev cur).filter (fun e => e.1 == k) = detectAt prev cur k := by
  induction cur with
  | nil => rfl
  | cons kc rest ih =>
    simp only [List.map_cons, List.nodup_cons] at hnd
    obtain ⟨hk0, hndr⟩ := hnd
    by_cases hkk : kc.1 = k
    · subst hkk
      have hc : snapLookup (kc :: rest) kc.1 = some kc.2 := by
        rw [snapLookup_cons]
        simp
      unfold detectAt
      rw [hc]
      cases hl : snapLookup prev kc.1 with
      | none =>
        have hd : detectEntry prev kc = none := by
          unfold detectEntry
          rw [hl]
        unfold detect
        rw [List.filterMap_cons, hd]
        simp only
        exact filter_detect_not_mem prev rest kc.1 hk0
      | some p =>
        have hd : detectEntry prev kc =
            if p.games_played < kc.2.games_played then
              some (kc.1,
                if 0 < kc.2.victories - p.victories then "Win" else "Loss")
            else none := by
          unfold detectEntry
          rw [hl]
        have hrest0 : (detect prev rest).filter (fun e => e.1 == kc.1) = [] :=
          filter_detect_not_mem prev rest kc.1 hk0
        unfold detect at hrest0 ⊢
        rw [List.filterMap_cons, hd]
        by_cases hgp : p.games_played < kc.2.games_played
        · rw [if_pos hgp]
          simp only
          rw [if_pos hgp]
          simp [hrest0, sub_pos]
        · rw [if_neg hgp]
          simp only
          rw [if_neg hgp]
          exact hrest0
    · have hne : (kc.1 == k) = false := beq_eq_false_iff_ne.mpr hkk
      have heq : detectAt prev (kc :: rest) k = detectAt prev rest k := by
        unfold detectAt
        rw [snapLookup_cons, hne]
        simp
      rw [heq]
      unfold detect
      rw [List.filterMap_cons]
      cases hd : detectEntry prev kc with
      | none => exact ih hndr
      | some e =>
        rw [List.filter_cons]
        have he : (e.1 == k) = false := by
          rw [detectEntry_key hd]
          exact hne
        simp only [he, Bool.false_eq_true, if_false]
        exact ih hndr

lemma snapLookup_self {a : List (String × GameData)} {k : String}
    {c : GameData} (hnd : (a.map Prod.fst).Nodup) (hm : (k, c) ∈ a) :
    snapLookup a k = some c := by
  induction a with
  | nil => cases hm
  | cons p rest ih =>
    simp only [List.map_cons, List.nodup_cons] at hnd
    obtain ⟨hp, hndr⟩ := hnd
    rcases List.mem_cons.mp hm with h | h
    · rw [← h, snapLookup_cons]
      simp
    · have hk : p.1 ≠ k := by
        intro he
        apply hp
        rw [he]
        exact List.mem_map_of_mem Prod.fst h
      rw [snapLookup_cons]
      simp only [beq_eq_false_iff_ne.mpr hk, Bool.false_eq_true, if_false]
      exact ih hndr h

lemma detect_self (a : List (String × GameData))
    (hnd : (a.map Prod.fst).Nodup) : detect a a = [] := by
  unfold detect
  rw [List.filterMap_eq_nil_iff]
  intro kc hm
  unfold detectEntry
  rw [snapLookup_self hnd (by simpa using hm)]
  simp

/-- Claim C1: for every pair of snapshots, the activity loop of
PlayerTracker.update emits exactly one event per gamemode key present in
both snapshots whose gamesPlayed strictly increased — Win iff victories
strictly increased, Loss otherwise — no event for any other key, and in
particular detect A A emits nothing. -/
theorem c1_detect_events :
    (∀ (prev cur : List (String × GameData)) (k : String),
      (cur.map Prod.fst).Nodup →
      (detect prev cur).filter (fun e => e.1 == k) = detectAt prev cur k) ∧
    (∀ a : List (String × GameData),
      (a.map Prod.fst).Nodup → detect a a = []) :=
  ⟨detect_filter, detect_self⟩

/-- Claim C3: on fetch failure PlayerTracker.update records the fetch
error and leaves previousSnapshot and the recorded last_activity
unchanged, while set_error — invoked for that player by the error signal
handler (source lines 866-872) — forces the freshness colour back to
Neutral grey without touching the item's recorded activity; on fetch
success with a dict payload, update clears the fetch error and sets
previousSnapshot to the newly parsed snapshot unconditionally after
diffing. -/
theorem c3_error_handling (st : TrackerState) (now : Rat) :
    ((update st none now).1.previous_data = st.previous_data ∧
     (update st none now).1.last_activity = st.last_activity ∧
     (update st none now).1.error_message = "API Error") ∧
    (∀ (it : ItemState) (msg : String),
      (set_error it msg).last_activity_time = it.last_activity_time ∧
      (set_error it msg).last_gamemode = it.last_gamemode ∧
      (set_error it msg).last_result = it.last_result ∧
      (set_error it msg).current_background_color = NEUTRAL_COLOR ∧
      (set_error it msg).error_message = msg) ∧
    (∀ (j : Json) (cur : List (String × GameData)),
      parse_game_data j = .ok cur →
      (update st (some j) now).1.error_message = "" ∧
      (update st (some j) now).1.previous_data = cur) := by
  refine ⟨⟨rfl, rfl, rfl⟩, fun it msg => ⟨rfl, rfl, rfl, rfl, rfl⟩, ?_⟩
  intro j cur hp
  unfold update
  simp only
  rw [hp]
  exact ⟨rfl, rfl⟩

/-- Witness for c3_error_handling at concrete states: a failed fetch keeps
the baseline and the recorded activity; a successful empty-dict fetch
clears the error and commits the (empty) snapshot. -/
theorem c3_witness :
    (update ⟨[("bed", ⟨5, 2⟩)], none, "old"⟩ none 0).1.previous_data =
      [("bed", ⟨5, 2⟩)] ∧
    (update ⟨[("bed", ⟨5, 2⟩)], none, "API Error"⟩ (some (Json.obj [])) 0).1.error_message = "" ∧
    (update ⟨[("bed", ⟨5, 2⟩)], none, "API Error"⟩ (some (Json.obj [])) 0).1.previous_data = [] := by
  refine ⟨(c3_error_handling ⟨[("bed", ⟨5, 2⟩)], none, "old"⟩ 0).1.1, ?_, ?_⟩
  · exact ((c3_error_handling ⟨[("bed", ⟨5, 2⟩)], none, "API Error"⟩ 0).2.2
      (Json.obj []) [] rfl).1
  · exact ((c3_error_handling ⟨[("bed", ⟨5, 2⟩)], none, "API Error"⟩ 0).2.2
      (Json.obj []) [] rfl).2

/-- Claim C4: for an item whose last activity was recorded at ta, the
periodic aging check clears the activity fields once now - ta reaches 1000
seconds and not before; below 1000 seconds the activity fields are
retained, and a non-neutral freshness colour set at tc reverts to neutral
grey once now - tc reaches 30 seconds and not before (the item is then
returned entirely unchanged). -/
theorem c4_decay (it : ItemState) (now ta : Rat)
    (hta : it.last_activity_time = some ta) :
    (1000 ≤ now - ta →
      (check_color_timeout it now).1.last_activity_time = none ∧
      (check_color_timeout it now).1.last_gamemode = "" ∧
      (check_color_timeout it now).1.last_result = "" ∧
      (check_color_timeout it now).1.current_background_color =
        NEUTRAL_COLOR) ∧
    (now - ta < 1000 →
      ((check_color_timeout it now).1.last_activity_time = some ta ∧
       (check_color_timeout it now).1.last_gamemode = it.last_gamemode ∧
       (check_color_timeout it now).1.last_result = it.last_result) ∧
      (∀ tc, it.color_change_time = some tc →
        it.current_background_color ≠ NEUTRAL_COLOR →
        (30 ≤ now - tc →
          (check_color_timeout it now).1.current_background_color =
            NEUTRAL_COLOR) ∧
        (now - tc < 30 → check_color_timeout it now = (it, false)))) := by
  unfold check_color_timeout
  rw [hta]
  simp only
  constructor
  · intro h1000
    rw [if_pos h1000]
    exact ⟨rfl, rfl, rfl, rfl⟩
  · intro hlt
    rw [if_neg (not_le.mpr hlt)]
    constructor
    · unfold checkThirty
      cases hct : it.color_change_time with
      | none => exact ⟨hta, rfl, rfl⟩
      | some tc =>
        simp only
        split
        · split
          · exact ⟨hta, rfl, rfl⟩
          · exact ⟨hta, rfl, rfl⟩
        · exact ⟨hta, rfl, rfl⟩
    · intro tc hct hcol
      unfold checkThirty
      rw [hct]
      simp only
      rw [if_pos hcol]
      constructor
      · intro h30
        rw [if_pos h30]
      · intro h30
        rw [if_neg (not_le.mpr h30)]

/-- Witness for c4_decay: a Win colour set at time 0 is still intact at 29
seconds, reverts to neutral grey at exactly 30 seconds with the activity
fields retained, and the activity is cleared at 1000 seconds. -/
theorem c4_witness :
    (check_color_timeout
        ⟨"", some 0, "Bedwars", "Win", "#00ff00", some 0⟩ 30).1.current_background_color = NEUTRAL_COLOR ∧
    (check_color_timeout
        ⟨"", some 0, "Bedwars", "Win", "#00ff00", some 0⟩ 30).1.last_gamemode = "Bedwars" ∧
    check_color_timeout
        ⟨"", some 0, "Bedwars", "Win", "#00ff00", some 0⟩ 29 =
      (⟨"", some 0, "Bedwars", "Win", "#00ff00", some 0⟩, false) ∧
    (check_color_timeout
        ⟨"", some 0, "Bedwars", "Win", "#00ff00", some 0⟩ 1000).1.last_activity_time = none := by
  refine ⟨?_, ?_, ?_, ?_⟩
  · exact (((c4_decay _ 30 0 rfl).2 (by norm_num)).2 0 rfl
      (by decide)).1 (by norm_num)
  · exact ((c4_decay _ 30 0 rfl).2 (by norm_num)).1.2.1
  · exact (((c4_decay _ 29 0 rfl).2 (by norm_num)).2 0 rfl
      (by decide)).2 (by norm_num)
  · exact ((c4_decay _ 1000 0 rfl).1 (by norm_num)).1

/-- Claim C5: for a positive requests-per-minute budget, one full polling
cycle visits every tracked player once, in tracked-set order, and sleeps
60/budget seconds after each visit — the budget is shared across players —
so a budget of 120 gives a 0.5 second inter-request sleep and a cycle over
3 players accumulates 1.5 seconds of scheduling sleep. -/
theorem c5_rate :
    (∀ (budget : Rat) (players : List String), 0 < budget →
      pollCycle budget players =
        (players, (players.length : Rat) * (60 / budget))) ∧
    (60 / (120 : Rat) = 1 / 2) ∧
    (pollCycle 120 ["p1", "p2", "p3"]).2 = 3 / 2 ∧
    (3 : Rat) / 2 ≤ (pollCycle 120 ["p1", "p2", "p3"]).2 := by
  refine ⟨?_, by norm_num, by norm_num [pollCycle], by norm_num [pollCycle]⟩
  intro budget players hb
  induction players with
  | nil => simp [pollCycle]
  | cons t rest ih =>
    have hint : (0 : Rat) < 60 / budget := by positivity
    unfold pollCycle
    rw [ih]
    simp only [if_pos hint, List.length_cons]
    refine Prod.ext rfl ?_
    push_cast
    ring

/-- Witness for c5_rate at budget 120 and three players. -/
theorem c5_witness :
    (0 : Rat) < 120 ∧
    pollCycle 120 ["p1", "p2", "p3"] =
      (["p1", "p2", "p3"], ((["p1", "p2", "p3"].length : Nat) : Rat) * (60 / 120)) :=
  ⟨by norm_num, c5_rate.1 120 ["p1", "p2", "p3"] (by norm_num)⟩

/-! ### Lemmas: removal discards in-flight results (claim C9) -/

lemma removeFirstItem_no_u :
    ∀ (items : List (String × ItemState)) (u : String),
    (items.map Prod.fst).count u ≤ 1 →
    ∀ p ∈ removeFirstItem items u, p.1 ≠ u := by
  intro items u
  induction items with
  | nil => intro hc p hp; cases hp
  | cons it rest ih =>
    intro hc p hp
    unfold removeFirstItem at hp
    by_cases hi : it.1 = u
    · rw [if_pos (beq_iff_eq.mpr hi)] at hp
      have h1 : (rest.map Prod.fst).count u = 0 := by
        have h2 := hc
        have hbeq2 : (it.1 == u) = true := beq_iff_eq.mpr hi
        simp only [List.map_cons, List.count_cons, hbeq2, if_true] at h2
        omega
      have hnm : u ∉ rest.map Prod.fst := List.count_eq_zero.mp h1
      intro hpu
      exact hnm (hpu ▸ List.mem_map_of_mem Prod.fst hp)
    · have hbeq : (it.1 == u) = false := beq_eq_false_iff_ne.mpr hi
      rw [if_neg (by simp [hbeq])] at hp
      rcases List.mem_cons.mp hp with h | h
      · rw [h]; exact hi
      · refine ih ?_ p h
        have h2 := hc
        simpa [List.count_cons, hi] using h2

lemma updateFirstItem_id :
    ∀ (items : List (String × ItemState)) (u gm res : String) (ts : Rat),
    (∀ p ∈ items, p.1 ≠ u) → updateFirstItem items u gm res ts = items := by
  intro items u gm res ts
  induction items with
  | nil => intro h; rfl
  | cons it rest ih =>
    intro h
    have hi : it.1 ≠ u := h it (List.mem_cons_self it rest)
    unfold updateFirstItem
    rw [if_neg (by simp [beq_eq_false_iff_ne.mpr hi])]
    rw [ih (fun p hp => h p (List.mem_cons_of_mem it hp))]

/-- Claim C9: removing a tracked username excises it from the trackers
dict and from the item list, and a later activity notification for that
username (the completion of an in-flight fetch) leaves the application
state entirely unchanged: no tracker entry is recreated and no item is
touched. -/
theorem c9_remove_discard (app : AppState) (u gm res : String) (ts : Rat)
    (hu : u ∈ app.trackers) (hnd : app.trackers.Nodup)
    (hcount : (app.items.map Prod.fst).count u ≤ 1) :
    u ∉ (remove_user app u).trackers ∧
    (∀ p ∈ (remove_user app u).items, p.1 ≠ u) ∧
    on_activity_detected (remove_user app u) u gm res ts =
      remove_user app u := by
  have hcont : app.trackers.contains u = true := List.elem_eq_true_of_mem hu
  have hbranch : remove_user app u =
      { app with
          trackers := app.trackers.erase u
          items := removeFirstItem app.items u } := by
    unfold remove_user
    rw [if_pos hcont]
  rw [hbranch]
  refine ⟨hnd.not_mem_erase, removeFirstItem_no_u app.items u hcount, ?_⟩
  unfold on_activity_detected
  rw [updateFirstItem_id _ u gm res ts
    (removeFirstItem_no_u app.items u hcount)]

/-- Witness for c9_remove_discard at a concrete one-player state. -/
theorem c9_witness :
    "Alex" ∉
      (remove_user ⟨["Alex"], [("Alex", initItem)], [], []⟩ "Alex").trackers ∧
    (∀ p ∈ (remove_user ⟨["Alex"], [("Alex", initItem)], [], []⟩
        "Alex").items, p.1 ≠ "Alex") ∧
    on_activity_detected
        (remove_user ⟨["Alex"], [("Alex", initItem)], [], []⟩ "Alex")
        "Alex" "Bedwars" "Win" 0 =
      remove_user ⟨["Alex"], [("Alex", initItem)], [], []⟩ "Alex" :=
  c9_remove_discard ⟨["Alex"], [("Alex", initItem)], [], []⟩ "Alex" "Bedwars"
    "Win" 0 (by simp) (by simp) (by decide)

/-! ### Claim C10: blacklist case-insensitivity, duplicate case-sensitivity -/

/-- Claim C10: add_user rejects a username matching an entry of either
blacklist case-insensitively after trimming, before any tracker is
created; its duplicate check compares case-sensitively against the
trackers dict; hence two usernames differing only in case (Alex and alex,
with neither blacklisted) are tracked simultaneously as distinct players. -/
theorem c10_blacklist_case (app : AppState) (entered : String) :
    (∀ b, (b ∈ app.protected_blacklist ∨ b ∈ app.blacklist) →
      normName b = normName (strStrip entered) →
      strStrip entered ≠ "" →
      add_user app entered = (app, AddOutcome.blacklisted)) ∧
    (strStrip entered ≠ "" →
      is_blacklisted app (strStrip entered) = false →
      strStrip entered ∈ app.trackers →
      (add_user app entered).2 = AddOutcome.alreadyTracking) ∧
    ((add_user ⟨["Alex"], [("Alex", initItem)], [], PROTECTED_BLACKLIST⟩
        "alex").2 = AddOutcome.added ∧
     (add_user ⟨["Alex"], [("Alex", initItem)], [], PROTECTED_BLACKLIST⟩
        "alex").1.trackers = ["Alex", "alex"]) := by
  refine ⟨?_, ?_, rfl, rfl⟩
  · intro b hb hnorm hne
    have hbl : is_blacklisted app (strStrip entered) = true := by
      unfold is_blacklisted
      simp only [Bool.or_eq_true]
      rcases hb with hb | hb
      · exact Or.inl (List.any_eq_true.mpr ⟨b, hb, by simp [hnorm]⟩)
      · exact Or.inr (List.any_eq_true.mpr ⟨b, hb, by simp [hnorm]⟩)
    unfold add_user
    simp only
    rw [if_neg hne, if_pos hbl]
  · intro hne hnbl htr
    have hcont : app.trackers.contains (strStrip entered) = true :=
      List.elem_eq_true_of_mem htr
    unfold add_user
    simp only
    rw [if_neg hne, if_neg (by simp [hnbl]), if_pos hcont]

/-- Witness for c10_blacklist_case: a user-blacklist entry rejects
" Listed " case-insensitively; adding Bob twice reports already tracking;
alex is added alongside Alex. -/
theorem c10_witness :
    add_user ⟨[], [], ["listed"], []⟩ " Listed " =
      (⟨[], [], ["listed"], []⟩, AddOutcome.blacklisted) ∧
    (add_user ⟨["Bob"], [("Bob", initItem)], [], []⟩ "Bob").2 =
      AddOutcome.alreadyTracking ∧
    (add_user ⟨["Alex"], [("Alex", initItem)], [], PROTECTED_BLACKLIST⟩
        "alex").2 = AddOutcome.added :=
  ⟨(c10_blacklist_case ⟨[], [], ["listed"], []⟩ " Listed ").1 "listed"
      (Or.inr (by simp)) rfl (by decide),
    (c10_blacklist_case ⟨["Bob"], [("Bob", initItem)], [], []⟩ "Bob").2.1
      (by decide) rfl (by decide),
    (c10_blacklist_case ⟨[], [], [], []⟩ "").2.2.1⟩

/-- Witness for c1_detect_events at the spec's concrete scenario: baseline
bed played 5 victories 2 against played 6 victories 2 gives exactly the
one event (bed, Loss); a self-diff emits nothing. -/
theorem c1_witness :
    (detect [("bed", ⟨5, 2⟩)] [("bed", ⟨6, 2⟩)]).filter
        (fun e => e.1 == "bed") =
      detectAt [("bed", ⟨5, 2⟩)] [("bed", ⟨6, 2⟩)] "bed" ∧
    detectAt [("bed", ⟨5, 2⟩)] [("bed", ⟨6, 2⟩)] "bed" = [("bed", "Loss")] ∧
    detect [("bed", ⟨5, 2⟩)] [("bed", ⟨5, 2⟩)] = [] :=
  ⟨c1_detect_events.1 [("bed", ⟨5, 2⟩)] [("bed", ⟨6, 2⟩)] "bed" (by decide),
    rfl,
    c1_detect_events.2 [("bed", ⟨5, 2⟩)] (by decide)⟩
